import Mathlib

/-!
Verification development for the SOC dashboard's live scanning, aggregation
and broadcast core (`src/api/api_server.js` plus the bash report generator).
The JavaScript and bash sources are shallowly embedded as executable Lean
definitions; machine-level concerns (JS numbers used as counters, `Date.now()`
clocks, `Math.random()` draws) are modelled with `Nat`, explicit clock
parameters and an explicit random stream `Nat → Nat`.
-/

/-- A structured JSON-compatible value, the payload tree exchanged between the
probes, the aggregation layer and the dashboard.  Numbers are modelled as
integers (the counters and derived values the design cares about are integral). -/
inductive Json : Type where
  | null : Json
  | bool (b : Bool) : Json
  | num (n : Int) : Json
  | str (s : String) : Json
  | arr (xs : List Json) : Json
  | obj (fields : List (String × Json)) : Json
deriving Repr

/-- JavaScript truthiness of a JSON value, as used by `if (cachedData)` and by
the `readJSONFile(...) || default` fallbacks in `api_server.js`:
`null`, `false`, `0` and the empty string are falsy, everything else truthy. -/
def jsTruthy : Json → Bool
  | Json.null => false
  | Json.bool b => b
  | Json.num n => n != 0
  | Json.str s => s != ""
  | Json.arr _ => true
  | Json.obj _ => true

/-- `readJSONFile(path) || defaultValue` from `api_server.js`: the read result
when truthy, otherwise the default (a failed read is `none`, i.e. JS `null`). -/
def orDefault (v : Option Json) (d : Json) : Json :=
  match v with
  | some j => if jsTruthy j then j else d
  | none => d

/-- Keys of a JSON object literal (in source order). -/
def objKeys (fields : List (String × Json)) : List String :=
  fields.map Prod.fst

/-- Field lookup in a JSON object literal, first match wins. -/
def objGet (fields : List (String × Json)) (k : String) : Option Json :=
  match fields with
  | [] => none
  | (k', v) :: rest => if k' = k then some v else objGet rest k

/-! ## Threat scoring (`calculate_threat_level` in the bash report generator)

The bash function reads four counters out of the JSON files written by the
probes (each guarded by a file-existence check, so a missing file contributes
nothing — modelled as `Option Nat`), accumulates `threat_score` and then maps
the score to a `threat_level`. -/

/-- The four-band threat level enumeration emitted by the report generator. -/
inductive ThreatLevel : Type where
  | LOW : ThreatLevel
  | MEDIUM : ThreatLevel
  | HIGH : ThreatLevel
  | CRITICAL : ThreatLevel
deriving DecidableEq, Repr

/-- Score contribution of `total_failed_logins` (from `login_summary.json`);
`none` means the file is absent, in which case the bash block is skipped. -/
def failedLoginScore : Option Nat → Nat
  | none => 0
  | some n => if n > 100 then 30 else if n > 50 then 20 else if n > 10 then 10 else 0

/-- Score contribution of the suspicious-process count
(`grep -c` of `process_name` in `suspicious_processes.json`). -/
def suspiciousScore : Option Nat → Nat
  | none => 0
  | some n => if n > 0 then 40 else 0

/-- Score contribution of the port-scan count
(`grep -c` of `source_ip` in `portscans.json`). -/
def portscanScore : Option Nat → Nat
  | none => 0
  | some n => if n > 5 then 25 else if n > 0 then 15 else 0

/-- Score contribution of the recent file-change count
(`grep -c` of `file` in `recent_changes.json`). -/
def fileChangeScore : Option Nat → Nat
  | none => 0
  | some n => if n > 20 then 20 else if n > 10 then 10 else 0

/-- `threat_score`: the weighted sum accumulated by `calculate_threat_level`
over failed-login volume, suspicious-process count, port-scan count and
recent file-change volume. -/
def threatScore (fl sp ps fc : Option Nat) : Nat :=
  failedLoginScore fl + suspiciousScore sp + portscanScore ps + fileChangeScore fc

/-- The final `if`-cascade of `calculate_threat_level` mapping a score to a
level: `CRITICAL` at 70 and above, `HIGH` at 50, `MEDIUM` at 30, else `LOW`. -/
def threatLevelOfScore (score : Nat) : ThreatLevel :=
  if score ≥ 70 then ThreatLevel.CRITICAL
  else if score ≥ 50 then ThreatLevel.HIGH
  else if score ≥ 30 then ThreatLevel.MEDIUM
  else ThreatLevel.LOW

/-- `calculate_threat_level`: computes the weighted score from the four section
counters and emits `{"threat_score": s, "threat_level": l}`. -/
def calculate_threat_level (fl sp ps fc : Option Nat) : Nat × ThreatLevel :=
  (threatScore fl sp ps fc, threatLevelOfScore (threatScore fl sp ps fc))

/-- C1: the threat scoring is a pure function of the section counters, the
score is the weighted sum of the four contributions, and the level matches the
documented thresholds: LOW below 30, MEDIUM in [30,50), HIGH in [50,70),
CRITICAL at 70 and above, with the documented boundary examples. -/
theorem calculate_threat_level_thresholds (fl sp ps fc : Option Nat) :
    (calculate_threat_level fl sp ps fc).1 =
      failedLoginScore fl + suspiciousScore sp + portscanScore ps + fileChangeScore fc ∧
    ((calculate_threat_level fl sp ps fc).2 = ThreatLevel.LOW ↔
      (calculate_threat_level fl sp ps fc).1 < 30) ∧
    ((calculate_threat_level fl sp ps fc).2 = ThreatLevel.MEDIUM ↔
      30 ≤ (calculate_threat_level fl sp ps fc).1 ∧ (calculate_threat_level fl sp ps fc).1 < 50) ∧
    ((calculate_threat_level fl sp ps fc).2 = ThreatLevel.HIGH ↔
      50 ≤ (calculate_threat_level fl sp ps fc).1 ∧ (calculate_threat_level fl sp ps fc).1 < 70) ∧
    ((calculate_threat_level fl sp ps fc).2 = ThreatLevel.CRITICAL ↔
      70 ≤ (calculate_threat_level fl sp ps fc).1) ∧
    threatLevelOfScore 29 = ThreatLevel.LOW ∧
    threatLevelOfScore 30 = ThreatLevel.MEDIUM ∧
    threatLevelOfScore 49 = ThreatLevel.MEDIUM ∧
    threatLevelOfScore 50 = ThreatLevel.HIGH ∧
    threatLevelOfScore 69 = ThreatLevel.HIGH ∧
    threatLevelOfScore 70 = ThreatLevel.CRITICAL := by
  refine ⟨rfl, ?_, ?_, ?_, ?_, by decide, by decide, by decide, by decide, by decide, by decide⟩ <;>
    · simp only [calculate_threat_level, threatLevelOfScore]
      split <;> [skip; split <;> [skip; split]] <;> simp <;> omega

/-! ## RealTimeScanner state machine (`api_server.js`, class `RealTimeScanner`)

The scanner's mutable fields are modelled as an explicit state record; time is
an explicit parameter standing for `new Date().toISOString()` at the moment of
a scan.  `setInterval` is modelled by recording the interval period that the
active timer was registered with (`none` = no timer). -/

/-- The mutable state of a `RealTimeScanner` instance. -/
structure ScannerState : Type where
  isActive : Bool
  scanInterval : Option Nat
  scanIntervalMs : Nat
  lastScanTime : Option String
  scanCount : Nat
deriving Repr, DecidableEq

/-- The `RealTimeScanner` constructor: inactive, no timer, 10 second period,
no scan performed yet. -/
def initialScanner : ScannerState :=
  { isActive := false
    scanInterval := none
    scanIntervalMs := 10000
    lastScanTime := none
    scanCount := 0 }

/-- `performLiveScan`'s effect on the scanner state: records the scan time and
increments `scanCount` (the gathering/saving/broadcasting steps do not touch
the scanner's own fields). -/
def performLiveScan (now : String) (s : ScannerState) : ScannerState :=
  { s with lastScanTime := some now, scanCount := s.scanCount + 1 }

/-- `startRealTimeScanning`: a no-op when already active; otherwise flags the
scanner active, resets `scanCount`, registers the periodic timer with period
`scanIntervalMs` and performs one immediate scan. -/
def startRealTimeScanning (now : String) (s : ScannerState) : ScannerState :=
  if s.isActive then s
  else
    performLiveScan now
      { s with isActive := true, scanCount := 0, scanInterval := some s.scanIntervalMs }

/-- `stopRealTimeScanning`: a no-op when not active; otherwise clears the
active flag and cancels the timer. -/
def stopRealTimeScanning (s : ScannerState) : ScannerState :=
  if !s.isActive then s
  else { s with isActive := false, scanInterval := none }

/-! ## Probe runner (`runMonitoringScript` in `api_server.js`)

`runMonitoringScript` wraps one `exec` of a backend bash script in a Promise.
The promise is *always* resolved (the executor never calls `reject`): a missing
script, a missing Git Bash on Windows, a non-zero exit and a timeout are all
reported by resolving with a fallback message string.  The embedding returns
the resolution as `Except String String` (`.error` would model a rejected
promise, which never occurs) together with the number of `exec` attempts made. -/

/-- Outcome of one `exec` of the monitoring script: clean exit with its stdout,
failing exit (non-zero exit code or any other `exec` error), or the 30 s
`exec` timeout killing the child (also delivered as an error to the callback). -/
inductive ExecOutcome : Type where
  | success (stdout : String) : ExecOutcome
  | failed : ExecOutcome
  | timedOut : ExecOutcome
deriving DecidableEq, Repr

/-- `runMonitoringScript scriptExists isWindows gitBashExists outcome` returns
the promise resolution (`Except.ok` = resolved, `Except.error` = rejected) and
the number of `exec` invocations performed. -/
def runMonitoringScript (scriptExists isWindows gitBashExists : Bool)
    (outcome : ExecOutcome) : Except String String × Nat :=
  if !scriptExists then
    (Except.ok "Script not found - using sample data", 0)
  else if isWindows then
    if gitBashExists then
      match outcome with
      | ExecOutcome.success stdout => (Except.ok stdout, 1)
      | _ => (Except.ok "Git Bash execution failed - using sample data", 1)
    else
      (Except.ok "Git Bash not available - using sample data", 0)
  else
    match outcome with
    | ExecOutcome.success stdout => (Except.ok stdout, 1)
    | _ => (Except.ok "Script execution failed - using sample data", 1)

/-! ## `DataCache` and `readJSONFile` (`api_server.js`)

`readJSONFile` consults a TTL cache keyed by file path before touching the
filesystem; everything is inside one `try`, and the `catch` returns `null`.
The filesystem is modelled as a map from path to a `FileState`; the clock
(`Date.now()`, milliseconds) is explicit. -/

/-- State of a file on disk: absent, present but unreadable-or-unparsable
(anything that makes `readFileSync`/`JSON.parse` throw), or valid JSON. -/
inductive FileState : Type where
  | missing : FileState
  | invalid : FileState
  | valid (j : Json) : FileState

/-- One entry of the `DataCache` map: the cached value and its insert time. -/
structure CacheEntry : Type where
  data : Json
  timestamp : Nat

/-- The `DataCache`: an association list standing for the JS `Map`, plus the
TTL (constructed with 30000 ms in the server). -/
structure DataCacheState : Type where
  cache : List (String × CacheEntry)
  ttl : Nat

/-- `DataCache.get`: the cached data if the entry exists and is younger than
the TTL, else `null`. -/
def cacheGet (st : DataCacheState) (now : Nat) (key : String) : Option Json :=
  match st.cache.lookup key with
  | some item => if now - item.timestamp < st.ttl then some item.data else none
  | none => none

/-- `DataCache.set`: inserts/overwrites the entry with the current time. -/
def cacheSet (st : DataCacheState) (now : Nat) (key : String) (data : Json) :
    DataCacheState :=
  { st with cache := (key, { data := data, timestamp := now }) :: st.cache.eraseP (fun e => e.1 == key) }

/-- `readJSONFile filePath`: returns the cached value when the cache holds a
truthy entry younger than the TTL; otherwise returns `null` for a missing
file, `null` (via `catch`) for an unreadable/unparsable file, and the parsed
value (also inserted into the cache) for a valid file.  The second component
is the cache state after the call. -/
def readJSONFile (st : DataCacheState) (now : Nat) (fs : String → FileState)
    (filePath : String) : Option Json × DataCacheState :=
  let fresh : Option Json × DataCacheState :=
    match fs filePath with
    | FileState.missing => (none, st)
    | FileState.invalid => (none, st)
    | FileState.valid j => (some j, cacheSet st now filePath j)
  match cacheGet st now filePath with
  | some c => if jsTruthy c then (some c, st) else fresh
  | none => fresh

/-! ## Decimal printing of numbers

Used both for the template strings (`192.168.${...}`) of the sample-data
generators and for the JSON serializer. -/

/-- The ASCII digit for `n % 10`. -/
def digitChar (n : Nat) : Char := Char.ofNat (48 + n % 10)

/-- Accumulator loop producing the decimal digits of `n` in front of `acc`. -/
def natDigitsGo (n : Nat) (acc : List Char) : List Char :=
  if n < 10 then digitChar n :: acc
  else natDigitsGo (n / 10) (digitChar (n % 10) :: acc)
termination_by n
decreasing_by exact Nat.div_lt_self (by omega) (by omega)

/-- Decimal digits of `n` (most significant first, `"0"` for zero). -/
def natDigits (n : Nat) : List Char := natDigitsGo n []

/-- Decimal string of `n`, as produced by JS template interpolation. -/
def natString (n : Nat) : String := String.mk (natDigits n)

/-- Integer model of JS `x.toFixed(2)` for a random value held in hundredths:
`v = 372` prints as `"3.72"`. -/
def fixed2String (v : Nat) : String :=
  natString (v / 100) ++ "." ++ natString (v / 10 % 10) ++ natString (v % 10)

/-! ## Sample data and live data generators (`api_server.js`)

Every `Math.floor(Math.random() * m)` draw is modelled as `r i % m` for an
explicit random stream `r : Nat → Nat`, with `i` numbering the draws of one
generator call. -/

/-- A random `192.168.x.y` address as interpolated in the source
(`x`, `y` are draws scaled by 255). -/
def randomIp (a b : Nat) : String :=
  "192.168." ++ natString (a % 255) ++ "." ++ natString (b % 255)

/-- `generateSampleData(dataType)`: fresh random sample payloads for the three
specially-handled section names, `{}` for everything else. -/
def generateSampleData (dataType : String) (r : Nat → Nat) (now : String) : Json :=
  if dataType = "login_summary" then
    Json.obj
      [ ("timestamp", Json.str now)
      , ("total_failed_logins", Json.num (r 0 % 50 + 10))
      , ("total_successful_logins", Json.num (r 1 % 200 + 50))
      , ("unique_attacking_ips", Json.num (r 2 % 20 + 5))
      , ("brute_force_attempts", Json.num (r 3 % 15 + 3)) ]
  else if dataType = "failed_logins" then
    Json.arr
      [ Json.obj
          [ ("timestamp", Json.str now)
          , ("ip", Json.str (randomIp (r 0) (r 1)))
          , ("username", Json.str ("user" ++ natString (r 2 % 100)))
          , ("attempts", Json.num (r 3 % 10 + 1))
          , ("status", Json.str "failed") ] ]
  else if dataType = "security_metrics" then
    Json.obj
      [ ("system_metrics", Json.obj
          [ ("cpu_usage_percent", Json.num (r 0 % 30 + 20))
          , ("memory_usage_percent", Json.num (r 1 % 40 + 30))
          , ("disk_usage_percent", Json.num (r 2 % 20 + 40)) ])
      , ("network_metrics", Json.obj
          [ ("active_connections", Json.num (r 3 % 100 + 50))
          , ("listening_ports", Json.num (r 4 % 20 + 10))
          , ("blocked_ips", Json.num (r 5 % 15 + 5)) ])
      , ("timestamp", Json.str now) ]
  else Json.obj []

/-- The `/api/dashboard` handler's data assembly: each section is the JSON
file's contents when the read yields a truthy value, otherwise the literal
default of that line (`generateSampleData` for `login_summary`,
`failed_logins` and `security_metrics`; `[]`, `{}` or the `soc_status`
stub for the rest).  `reads` maps a file name to the `readJSONFile` result. -/
def dashboardData (reads : String → Option Json) (r : Nat → Nat) (now : String) :
    List (String × Json) :=
  [ ("timestamp", Json.str now)
  , ("login_summary", orDefault (reads "login_summary.json") (generateSampleData "login_summary" r now))
  , ("failed_logins", orDefault (reads "failed_logins.json") (generateSampleData "failed_logins" r now))
  , ("top_attackers", orDefault (reads "top_attackers.json") (Json.arr []))
  , ("brute_force_alerts", orDefault (reads "brute_force_alerts.json") (Json.arr []))
  , ("portscans", orDefault (reads "portscans.json") (Json.arr []))
  , ("open_ports", orDefault (reads "open_ports.json") (Json.arr []))
  , ("connection_stats", orDefault (reads "connection_stats.json") (Json.obj []))
  , ("suspicious_processes", orDefault (reads "suspicious_processes.json") (Json.arr []))
  , ("top_processes", orDefault (reads "top_processes.json") (Json.arr []))
  , ("process_summary", orDefault (reads "process_summary.json") (Json.obj []))
  , ("file_integrity", orDefault (reads "file_integrity.json") (Json.arr []))
  , ("recent_changes", orDefault (reads "recent_changes.json") (Json.arr []))
  , ("ip_geolocation", orDefault (reads "ip_geolocation.json") (Json.arr []))
  , ("attack_by_country", orDefault (reads "attack_by_country.json") (Json.arr []))
  , ("threat_map", orDefault (reads "threat_map.json") (Json.arr []))
  , ("executive_summary", orDefault (reads "executive_summary.json") (Json.obj []))
  , ("security_metrics", orDefault (reads "security_metrics.json") (generateSampleData "security_metrics" r now))
  , ("alert_summary", orDefault (reads "alert_summary.json") (Json.obj []))
  , ("soc_status", orDefault (reads "soc_status.json") (Json.obj [("status", Json.str "operational")])) ]

/-- The section keys the design registers as the stable Snapshot contract. -/
def registeredSectionKeys : List String :=
  [ "login_summary", "failed_logins", "top_attackers", "portscans", "open_ports"
  , "connection_stats", "suspicious_processes", "top_processes", "process_summary"
  , "file_integrity", "recent_changes", "ip_geolocation", "attack_by_country"
  , "threat_map", "security_metrics", "alert_summary", "executive_summary" ]

/-- `getLiveLoginData`: a fresh random login summary. -/
def getLiveLoginData (r : Nat → Nat) (now : String) : Json :=
  Json.obj
    [ ("timestamp", Json.str now)
    , ("total_failed_logins", Json.num (r 0 % 50 + 10))
    , ("total_successful_logins", Json.num (r 1 % 200 + 50))
    , ("unique_attacking_ips", Json.num (r 2 % 20 + 5))
    , ("brute_force_attempts", Json.num (r 3 % 15 + 3)) ]

/-- `getLiveFailedLogins`: 1–5 random failed-login records. -/
def getLiveFailedLogins (r : Nat → Nat) (now : String) : Json :=
  Json.arr ((List.range (r 0 % 5 + 1)).map (fun i =>
    Json.obj
      [ ("timestamp", Json.str now)
      , ("ip", Json.str (randomIp (r (5 * i + 1)) (r (5 * i + 2))))
      , ("username", Json.str ("user" ++ natString (r (5 * i + 3) % 100)))
      , ("attempts", Json.num (r (5 * i + 4) % 10 + 1))
      , ("status", Json.str "failed") ]))

/-- `getLiveTopAttackers`: 1–5 random attacker records. -/
def getLiveTopAttackers (r : Nat → Nat) (now : String) : Json :=
  Json.arr ((List.range (r 0 % 5 + 1)).map (fun i =>
    Json.obj
      [ ("ip", Json.str (randomIp (r (4 * i + 1)) (r (4 * i + 2))))
      , ("attempts", Json.num (r (4 * i + 3) % 50 + 10))
      , ("country", Json.str (["US", "CN", "RU", "DE", "FR"].getD (r (4 * i + 4) % 5) "US"))
      , ("last_seen", Json.str now) ]))

/-- `getLivePortScans`: 1–3 random port-scan records. -/
def getLivePortScans (r : Nat → Nat) (now : String) : Json :=
  Json.arr ((List.range (r 0 % 3 + 1)).map (fun i =>
    Json.obj
      [ ("timestamp", Json.str now)
      , ("source_ip", Json.str (randomIp (r (5 * i + 1)) (r (5 * i + 2))))
      , ("target_ports", Json.arr ((([22, 80, 443, 8080, 3306] : List Nat).take
          (r (5 * i + 3) % 3 + 1)).map Json.num))
      , ("scan_type", Json.str (["TCP", "UDP"].getD (r (5 * i + 4) % 2) "TCP"))
      , ("duration", Json.num (r (5 * i + 5) % 300 + 60)) ]))

/-- `getLiveSuspiciousProcesses`: 0 or 1 random suspicious-process record
(the count draw is scaled by 2). -/
def getLiveSuspiciousProcesses (r : Nat → Nat) (now : String) : Json :=
  Json.arr ((List.range (r 0 % 2)).map (fun i =>
    Json.obj
      [ ("process_name", Json.str
          (["netcat", "nmap", "metasploit", "backdoor", "rootkit"].getD (r (5 * i + 1) % 5) "netcat"))
      , ("pid", Json.num (r (5 * i + 2) % 10000 + 1000))
      , ("cpu_usage", Json.str (fixed2String (r (5 * i + 3) % 1000)))
      , ("memory_usage", Json.str (fixed2String (r (5 * i + 4) % 500)))
      , ("command", Json.str ("/usr/bin/" ++
          (["netcat", "nmap", "metasploit", "backdoor", "rootkit"].getD (r (5 * i + 5) % 5) "netcat")))
      , ("severity", Json.str "high")
      , ("timestamp", Json.str now) ]))

/-- `getLiveOpenPorts`: 2–6 random open-port records. -/
def getLiveOpenPorts (r : Nat → Nat) (now : String) : Json :=
  Json.arr ((List.range (r 0 % 5 + 2)).map (fun i =>
    Json.obj
      [ ("port", Json.num (([22, 80, 443, 8080, 3306, 5432, 27017] : List Nat).getD (r (3 * i + 1) % 7) 22))
      , ("service", Json.str
          (["SSH", "HTTP", "HTTPS", "HTTP-Proxy", "MySQL", "PostgreSQL", "MongoDB"].getD (r (3 * i + 2) % 7) "SSH"))
      , ("state", Json.str "LISTEN")
      , ("process", Json.str ("process_" ++ natString (r (3 * i + 3) % 1000)))
      , ("timestamp", Json.str now) ]))

/-- `getLiveConnectionStats`: random connection statistics. -/
def getLiveConnectionStats (r : Nat → Nat) (now : String) : Json :=
  Json.obj
    [ ("established_connections", Json.num (r 0 % 200 + 100))
    , ("listening_ports", Json.num (r 1 % 20 + 10))
    , ("active_network_sessions", Json.num (r 2 % 300 + 150))
    , ("timestamp", Json.str now) ]

/-- `getLiveSecurityMetrics`: random system and network metrics (the JS values
are real-valued; the model keeps the integer part of each draw). -/
def getLiveSecurityMetrics (r : Nat → Nat) : Json :=
  Json.obj
    [ ("system_metrics", Json.obj
        [ ("memory_usage_percent", Json.num (r 0 % 30 + 50))
        , ("cpu_usage_percent", Json.num (r 1 % 40 + 20))
        , ("disk_usage_percent", Json.num (r 2 % 30 + 40)) ])
    , ("network_metrics", Json.obj
        [ ("active_connections", Json.num (r 3 % 200 + 100))
        , ("listening_ports", Json.num (r 4 % 20 + 10))
        , ("blocked_ips", Json.num (r 5 % 15 + 5)) ]) ]

/-- `getLiveAlertSummary`: random alert counts. -/
def getLiveAlertSummary (r : Nat → Nat) (now : String) : Json :=
  Json.obj
    [ ("total_alerts", Json.num (r 0 % 20 + 5))
    , ("critical_alerts", Json.num (r 1 % 5 + 1))
    , ("high_alerts", Json.num (r 2 % 8 + 2))
    , ("medium_alerts", Json.num (r 3 % 10 + 3))
    , ("low_alerts", Json.num (r 4 % 15 + 5))
    , ("timestamp", Json.str now) ]

/-- `getLiveExecutiveSummary`: random executive summary. -/
def getLiveExecutiveSummary (r : Nat → Nat) (now : String) : Json :=
  Json.obj
    [ ("overall_threat_level", Json.str (["Low", "Medium", "High"].getD (r 0 % 3) "Low"))
    , ("active_threats", Json.num (r 1 % 10 + 1))
    , ("system_health", Json.num (r 2 % 40 + 60))
    , ("security_score", Json.num (r 3 % 30 + 70))
    , ("recommendations", Json.arr
        [ Json.str "Monitor failed login attempts"
        , Json.str "Review suspicious processes"
        , Json.str "Check open ports"
        , Json.str "Update security policies" ])
    , ("timestamp", Json.str now) ]

/-- `gatherLiveData`: the object assembled by one live scan cycle.  `r i` is
the random stream consumed by the `i`-th section generator. -/
def gatherLiveData (r : Nat → Nat → Nat) (now : String) : List (String × Json) :=
  [ ("timestamp", Json.str now)
  , ("login_summary", getLiveLoginData (r 0) now)
  , ("failed_logins", getLiveFailedLogins (r 1) now)
  , ("top_attackers", getLiveTopAttackers (r 2) now)
  , ("portscans", getLivePortScans (r 3) now)
  , ("suspicious_processes", getLiveSuspiciousProcesses (r 4) now)
  , ("open_ports", getLiveOpenPorts (r 5) now)
  , ("connection_stats", getLiveConnectionStats (r 6) now)
  , ("security_metrics", getLiveSecurityMetrics (r 7))
  , ("alert_summary", getLiveAlertSummary (r 8) now)
  , ("executive_summary", getLiveExecutiveSummary (r 9) now) ]

/-! ## WebSocket push messages (`wss.on('connection')` and
`broadcastLiveUpdate` in `api_server.js`) -/

/-- The greeting sent on a new WebSocket connection. -/
def connectionMessage (now : String) : Json :=
  Json.obj
    [ ("type", Json.str "connection")
    , ("message", Json.str "Connected to SOC Dashboard")
    , ("timestamp", Json.str now) ]

/-- The periodic (30 s) status update pushed to one connection. -/
def updateMessage (socStatus alertSummary : Json) (now : String) : Json :=
  Json.obj
    [ ("type", Json.str "update")
    , ("data", Json.obj
        [ ("soc_status", socStatus)
        , ("alert_summary", alertSummary)
        , ("timestamp", Json.str now) ]) ]

/-- The message `broadcastLiveUpdate` sends to every open client after a scan. -/
def liveUpdateMessage (liveData : Json) (now : String) : Json :=
  Json.obj
    [ ("type", Json.str "live_update")
    , ("data", liveData)
    , ("timestamp", Json.str now) ]

/-- `broadcastLiveUpdate`: each client receives the `live_update` message when
its socket is open, nothing otherwise. -/
def broadcastLiveUpdate (clients : List Bool) (liveData : Json) (now : String) :
    List (Option Json) :=
  clients.map (fun isOpen => if isOpen then some (liveUpdateMessage liveData now) else none)

/-- Top-level keys of a JSON value (empty for non-objects). -/
def jsonKeys : Json → List String
  | Json.obj fields => objKeys fields
  | _ => []

/-- Lookup of a top-level field of a JSON value (`none` for non-objects). -/
def jsonGet (j : Json) (k : String) : Option Json :=
  match j with
  | Json.obj fields => objGet fields k
  | _ => none

/-- The key list of the object built by `gatherLiveData` (one live scan). -/
def gatherLiveDataKeys : List String :=
  [ "timestamp", "login_summary", "failed_logins", "top_attackers", "portscans"
  , "suspicious_processes", "open_ports", "connection_stats", "security_metrics"
  , "alert_summary", "executive_summary" ]

/-- The key list of the object built by the `/api/dashboard` handler. -/
def dashboardKeys : List String :=
  [ "timestamp", "login_summary", "failed_logins", "top_attackers", "brute_force_alerts"
  , "portscans", "open_ports", "connection_stats", "suspicious_processes", "top_processes"
  , "process_summary", "file_integrity", "recent_changes", "ip_geolocation"
  , "attack_by_country", "threat_map", "executive_summary", "security_metrics"
  , "alert_summary", "soc_status" ]

theorem gatherLiveData_keys (r : Nat → Nat → Nat) (now : String) :
    (gatherLiveData r now).map Prod.fst = gatherLiveDataKeys := rfl

theorem dashboardData_keys (reads : String → Option Json) (r : Nat → Nat) (now : String) :
    (dashboardData reads r now).map Prod.fst = dashboardKeys := rfl

/-- Claim C2, counterexample: the snapshot produced by a live collection cycle
(`gatherLiveData`) is missing the registered section key `threat_map`
(and six others), so not every cycle's snapshot contains all registered keys. -/
theorem gatherLiveData_missing_registered_key :
    "threat_map" ∈ registeredSectionKeys ∧
    "threat_map" ∉ (gatherLiveData (fun _ _ => 0) "t").map Prod.fst := by
  rw [gatherLiveData_keys]
  decide

/-- Claim C2, amended: the `/api/dashboard` snapshot contains every registered
section key for every outcome of the file reads (in particular when every read
fails), while the live-scan cycle's snapshot contains only ten of the
seventeen registered keys — `top_processes`, `process_summary`,
`file_integrity`, `recent_changes`, `ip_geolocation`, `attack_by_country` and
`threat_map` are absent from it. -/
theorem snapshot_section_keys :
    (∀ (reads : String → Option Json) (r : Nat → Nat) (now : String),
      registeredSectionKeys ⊆ (dashboardData reads r now).map Prod.fst) ∧
    (∀ (r : Nat → Nat → Nat) (now : String),
      (gatherLiveData r now).map Prod.fst = gatherLiveDataKeys) ∧
    registeredSectionKeys.filter (fun k => !(gatherLiveDataKeys.contains k)) =
      [ "top_processes", "process_summary", "file_integrity", "recent_changes"
      , "ip_geolocation", "attack_by_country", "threat_map" ] := by
  refine ⟨fun reads r now => ?_, fun r now => rfl, by decide⟩
  rw [dashboardData_keys]
  decide

/-- Claim C3, counterexample: a published snapshot carries no sequence number:
neither the live-scan snapshot object nor the broadcast wire message has a
`sequence` key. -/
theorem published_snapshot_has_no_sequence :
    "sequence" ∉ (gatherLiveData (fun _ _ => 0) "t").map Prod.fst ∧
    "sequence" ∉ jsonKeys (liveUpdateMessage (Json.obj (gatherLiveData (fun _ _ => 0) "t")) "t") := by
  rw [gatherLiveData_keys]
  exact ⟨by decide, by decide⟩

/-- Claim C3, amended: snapshots carry no `sequence` field; the scanner's
internal `scanCount` increases by exactly one with each performed scan (hence
strictly increases across consecutive scans of one running period), and is
reset by a restart, the immediate scan of `startRealTimeScanning` leaving it
at 1. -/
theorem scanCount_strictly_increases :
    (∀ (now : String) (s : ScannerState),
      (performLiveScan now s).scanCount = s.scanCount + 1) ∧
    (∀ (now : String) (s : ScannerState),
      s.scanCount < (performLiveScan now s).scanCount) ∧
    (startRealTimeScanning "t" initialScanner).scanCount = 1 ∧
    "sequence" ∉ gatherLiveDataKeys := by
  refine ⟨fun now s => rfl, fun now s => ?_, rfl, by decide⟩
  simp [performLiveScan]

/-- Claim C4, counterexample: with every file read failing, the dashboard's
`login_summary` section differs between two runs that only differ in the
random stream — the section is filled with freshly generated random sample
data, not with a prior value or a fixed default. -/
theorem failed_section_is_fresh_random :
    objGet (dashboardData (fun _ => none) (fun _ => 0) "t") "login_summary" ≠
      objGet (dashboardData (fun _ => none) (fun _ => 1) "t") "login_summary" := by
  intro h
  have h0 : objGet (dashboardData (fun _ => none) (fun _ => 0) "t") "login_summary" =
      some (generateSampleData "login_summary" (fun _ => 0) "t") := rfl
  have h1 : objGet (dashboardData (fun _ => none) (fun _ => 1) "t") "login_summary" =
      some (generateSampleData "login_summary" (fun _ => 1) "t") := rfl
  rw [h0, h1] at h
  simp [generateSampleData] at h

/-- Claim C4, amended: when a section's file read fails, the dashboard fills
`login_summary`, `failed_logins` and `security_metrics` with freshly generated
random sample data and every other section with the fixed default of its line
(`[]`, `{}`, or the `soc_status` stub); no previously successful value is
consulted. -/
theorem failed_sections_default_policy (r : Nat → Nat) (now : String) :
    objGet (dashboardData (fun _ => none) r now) "login_summary" =
      some (generateSampleData "login_summary" r now) ∧
    objGet (dashboardData (fun _ => none) r now) "failed_logins" =
      some (generateSampleData "failed_logins" r now) ∧
    objGet (dashboardData (fun _ => none) r now) "security_metrics" =
      some (generateSampleData "security_metrics" r now) ∧
    objGet (dashboardData (fun _ => none) r now) "top_attackers" = some (Json.arr []) ∧
    objGet (dashboardData (fun _ => none) r now) "process_summary" = some (Json.obj []) ∧
    objGet (dashboardData (fun _ => none) r now) "threat_map" = some (Json.arr []) ∧
    objGet (dashboardData (fun _ => none) r now) "soc_status" =
      some (Json.obj [("status", Json.str "operational")]) := by
  exact ⟨rfl, rfl, rfl, rfl, rfl, rfl, rfl⟩

/-- Claim C5, counterexample: a failing script execution is attempted exactly
once and the promise resolves with the fallback message — there is no retry,
no backoff, and no `ok=false` result carrying the error. -/
theorem runMonitoringScript_no_retry :
    runMonitoringScript true false false ExecOutcome.failed =
      (Except.ok "Script execution failed - using sample data", 1) := rfl

/-- Claim C5, amended: `runMonitoringScript` performs at most one execution
attempt for every input (zero when the script or Git Bash is missing), always
resolves (never rejects), and on a Unix execution failure resolves with the
fixed fallback string. -/
theorem runMonitoringScript_single_attempt (se iw gb : Bool) (oc : ExecOutcome) :
    (runMonitoringScript se iw gb oc).2 ≤ 1 ∧
    (∃ s, (runMonitoringScript se iw gb oc).1 = Except.ok s) ∧
    (runMonitoringScript true false false ExecOutcome.failed).1 =
      Except.ok "Script execution failed - using sample data" := by
  rcases se <;> rcases iw <;> rcases gb <;> rcases oc <;>
    exact ⟨by simp [runMonitoringScript], ⟨_, rfl⟩, rfl⟩

/-- Claim C6: the scan controller is a two-state machine: `Start` on a running
scanner is a no-op (state unchanged, so still a single timer); `Start` from
stopped activates the scanner, registers the periodic timer with the
constructor's 10000 ms period and performs one immediate scan; `Stop` on a
stopped scanner is a no-op; `Stop` from running deactivates and cancels the
timer; both are idempotent. -/
theorem scanController_state_machine (s : ScannerState) (now : String) :
    (s.isActive = true → startRealTimeScanning now s = s) ∧
    (s.isActive = false →
      (startRealTimeScanning now s).isActive = true ∧
      (startRealTimeScanning now s).scanInterval = some s.scanIntervalMs ∧
      (startRealTimeScanning now s).scanCount = 1) ∧
    initialScanner.scanIntervalMs = 10000 ∧
    (s.isActive = false → stopRealTimeScanning s = s) ∧
    (s.isActive = true →
      (stopRealTimeScanning s).isActive = false ∧
      (stopRealTimeScanning s).scanInterval = none) ∧
    startRealTimeScanning now (startRealTimeScanning now s) = startRealTimeScanning now s ∧
    stopRealTimeScanning (stopRealTimeScanning s) = stopRealTimeScanning s := by
  refine ⟨fun h => ?_, fun h => ?_, rfl, fun h => ?_, fun h => ?_, ?_, ?_⟩
  · simp [startRealTimeScanning, h]
  · simp [startRealTimeScanning, performLiveScan, h]
  · simp [stopRealTimeScanning, h]
  · simp [stopRealTimeScanning, h]
  · by_cases h : s.isActive <;> simp [startRealTimeScanning, performLiveScan, h]
  · by_cases h : s.isActive <;> simp [stopRealTimeScanning, h]

/-- Claim C6, witness: the state-machine contract evaluated on the constructor
state and on a running state. -/
theorem scanController_state_machine_witness :
    startRealTimeScanning "t" { initialScanner with isActive := true } =
      { initialScanner with isActive := true } ∧
    (startRealTimeScanning "t" initialScanner).isActive = true ∧
    (startRealTimeScanning "t" initialScanner).scanInterval = some 10000 ∧
    (startRealTimeScanning "t" initialScanner).scanCount = 1 ∧
    stopRealTimeScanning initialScanner = initialScanner ∧
    (stopRealTimeScanning { initialScanner with isActive := true }).isActive = false := by
  have h1 := scanController_state_machine { initialScanner with isActive := true } "t"
  have h2 := scanController_state_machine initialScanner "t"
  refine ⟨h1.1 rfl, (h2.2.1 rfl).1, ?_, (h2.2.1 rfl).2.2, h2.2.2.2.1 rfl, (h1.2.2.2.2.1 rfl).1⟩
  exact (h2.2.1 rfl).2.1

/-- The `/api/dashboard` request handler: awaits the report-generator script
(whose promise never rejects) and assembles the dashboard object; the `try`
block is modelled by the `Except` monad, `Except.error` standing for the
`catch` branch answering HTTP 500. -/
def dashboardHandler (se iw gb : Bool) (oc : ExecOutcome)
    (reads : String → Option Json) (r : Nat → Nat) (now : String) :
    Except String (List (String × Json)) := do
  let _ ← (runMonitoringScript se iw gb oc).1
  pure (dashboardData reads r now)

/-- Claim C7: for every combination of probe-level failures (missing script,
failed execution, timeout — and missing or malformed JSON files behind the
reads), the dashboard read path succeeds: the handler returns `ok` with the
full snapshot, never the error branch, probe failures only degrading sections
to their defaults, as witnessed by the failing `portscans` read yielding the
`[]` default. -/
theorem dashboard_absorbs_probe_failures (se iw gb : Bool) (oc : ExecOutcome)
    (st : DataCacheState) (clock : Nat) (fs : String → FileState)
    (r : Nat → Nat) (now : String) :
    dashboardHandler se iw gb oc (fun p => (readJSONFile st clock fs p).1) r now =
      Except.ok (dashboardData (fun p => (readJSONFile st clock fs p).1) r now) ∧
    (dashboardData (fun p => (readJSONFile st clock fs p).1) r now).map Prod.fst =
      dashboardKeys ∧
    (readJSONFile ⟨[], 30000⟩ clock (fun _ => FileState.missing) "portscans.json").1 = none ∧
    objGet (dashboardData
        (fun p => (readJSONFile ⟨[], 30000⟩ clock (fun _ => FileState.missing) p).1) r now)
      "portscans" = some (Json.arr []) := by
  refine ⟨?_, rfl, rfl, rfl⟩
  rcases se <;> rcases iw <;> rcases gb <;> rcases oc <;> rfl

/-- Claim C8, counterexample: the `connection` greeting has no `data` key (its
payload sits under `message`), and the periodic `update` message has no
top-level `timestamp` (its timestamp is nested inside `data`). -/
theorem push_message_format_violations :
    "data" ∉ jsonKeys (connectionMessage "t") ∧
    "timestamp" ∉ jsonKeys (updateMessage (Json.obj []) (Json.obj []) "t") := by
  exact ⟨by decide, by decide⟩

/-- Claim C8, amended: every pushed message is tagged with a type discriminator
in \x7bconnection, update, live_update\x7d; the `live_update` message carries a
top-level `timestamp` and its payload under `data`; but the `connection`
message carries its payload under `message` with no `data` key, and the
`update` message nests its timestamp inside `data` with no top-level
`timestamp`. -/
theorem push_message_formats (soc alert live : Json) (now : String) :
    jsonGet (connectionMessage now) "type" = some (Json.str "connection") ∧
    jsonKeys (connectionMessage now) = ["type", "message", "timestamp"] ∧
    jsonGet (connectionMessage now) "timestamp" = some (Json.str now) ∧
    jsonGet (updateMessage soc alert now) "type" = some (Json.str "update") ∧
    jsonKeys (updateMessage soc alert now) = ["type", "data"] ∧
    jsonGet (updateMessage soc alert now) "data" =
      some (Json.obj
        [ ("soc_status", soc), ("alert_summary", alert), ("timestamp", Json.str now) ]) ∧
    jsonGet (liveUpdateMessage live now) "type" = some (Json.str "live_update") ∧
    jsonKeys (liveUpdateMessage live now) = ["type", "data", "timestamp"] ∧
    jsonGet (liveUpdateMessage live now) "data" = some live ∧
    jsonGet (liveUpdateMessage live now) "timestamp" = some (Json.str now) ∧
    broadcastLiveUpdate [true, false] live now =
      [some (liveUpdateMessage live now), none] := by
  exact ⟨rfl, rfl, rfl, rfl, rfl, rfl, rfl, rfl, rfl, rfl, rfl⟩

/-- A cache state holding a still-fresh entry for `f.json`. -/
def warmCache : DataCacheState :=
  { cache := [("f.json", { data := Json.num 7, timestamp := 0 })], ttl := 30000 }

/-- Claim C10, counterexample: with a fresh (younger than the 30 s TTL) cache
entry for the path, `readJSONFile` returns the cached value — not `null` —
even though the file does not exist. -/
theorem readJSONFile_stale_cache_on_missing_file :
    (readJSONFile warmCache 1000 (fun _ => FileState.missing) "f.json").1 =
      some (Json.num 7) ∧
    (readJSONFile warmCache 1000 (fun _ => FileState.missing) "f.json").1 ≠ none := by
  exact ⟨rfl, by simp [readJSONFile, warmCache, cacheGet, jsTruthy]⟩

/-- Claim C10, amended: `readJSONFile` is total (always returns a value, the
`catch` absorbing every failure): on a cache miss it returns `null` for a
missing file, `null` for an unreadable/unparsable file, and the parsed value
for a valid file; but a truthy cache entry younger than the TTL is returned
as-is, without consulting the filesystem. -/
theorem readJSONFile_total (st : DataCacheState) (now : Nat)
    (fs : String → FileState) (p : String) :
    (cacheGet st now p = none →
      (fs p = FileState.missing → (readJSONFile st now fs p).1 = none) ∧
      (fs p = FileState.invalid → (readJSONFile st now fs p).1 = none) ∧
      (∀ j, fs p = FileState.valid j → (readJSONFile st now fs p).1 = some j)) ∧
    (∀ c, cacheGet st now p = some c → jsTruthy c = true →
      (readJSONFile st now fs p).1 = some c) := by
  constructor
  · intro hmiss
    refine ⟨fun hf => ?_, fun hf => ?_, fun j hf => ?_⟩ <;> simp [readJSONFile, hmiss, hf]
  · intro c hc ht
    simp [readJSONFile, hc, ht]

/-- Claim C10, witness: the amended contract evaluated on an empty cache with a
missing file, and on the warm cache. -/
theorem readJSONFile_total_witness :
    (readJSONFile ⟨[], 30000⟩ 0 (fun _ => FileState.missing) "x").1 = none ∧
    (readJSONFile warmCache 1000 (fun _ => FileState.missing) "f.json").1 =
      some (Json.num 7) := by
  constructor
  · exact ((readJSONFile_total ⟨[], 30000⟩ 0 (fun _ => FileState.missing) "x").1 rfl).1 rfl
  · exact (readJSONFile_total warmCache 1000 (fun _ => FileState.missing) "f.json").2
      (Json.num 7) rfl rfl

/-! ## Wire format: serialization and parsing (`JSON.stringify` / `JSON.parse`)

`broadcastLiveUpdate` serializes each message with `JSON.stringify` before the
socket send, and both the clients and `readJSONFile` recover values with
`JSON.parse`.  The wire format is modelled as a character list: a compact
serializer (no insignificant whitespace, `"`/`\` escaped in strings) and a
fuel-indexed recursive-descent parser for exactly that format. -/

/-- Escape of one string character on the wire (`"` and `\` get a backslash). -/
def escapeChar (c : Char) : List Char :=
  if c = '"' ∨ c = '\\' then ['\\', c] else [c]

/-- Escape of a whole string body. -/
def escapeChars : List Char → List Char
  | [] => []
  | c :: cs => escapeChar c ++ escapeChars cs

/-- A serialized string literal: quote, escaped body, quote. -/
def printString (s : String) : List Char :=
  '"' :: (escapeChars s.data ++ ['"'])

/-- Serialized integer: optional minus sign and decimal digits. -/
def intChars (n : Int) : List Char :=
  if n < 0 then '-' :: natDigits n.natAbs else natDigits n.natAbs

mutual

/-- Serializer for one JSON value (compact `JSON.stringify` format). -/
def printJson : Json → List Char
  | Json.null => ['n', 'u', 'l', 'l']
  | Json.bool true => ['t', 'r', 'u', 'e']
  | Json.bool false => ['f', 'a', 'l', 's', 'e']
  | Json.num n => intChars n
  | Json.str s => printString s
  | Json.arr xs => '[' :: (printItemsSep xs ++ [']'])
  | Json.obj fs => '\x7b' :: (printFieldsSep fs ++ ['\x7d'])

/-- Comma-separated serialization of array elements. -/
def printItemsSep : List Json → List Char
  | [] => []
  | [x] => printJson x
  | x :: y :: xs => printJson x ++ ',' :: printItemsSep (y :: xs)

/-- Comma-separated serialization of object fields (`"key":value`). -/
def printFieldsSep : List (String × Json) → List Char
  | [] => []
  | [(k, v)] => printString k ++ ':' :: printJson v
  | (k, v) :: f :: fs => printString k ++ ':' :: printJson v ++ ',' :: printFieldsSep (f :: fs)

end

mutual

/-- Fuel bound for parsing one serialized value. -/
def sizeJ : Json → Nat
  | Json.null => 1
  | Json.bool _ => 1
  | Json.num _ => 1
  | Json.str _ => 1
  | Json.arr xs => 1 + sizeL xs
  | Json.obj fs => 1 + sizeF fs

/-- Fuel bound for parsing serialized array elements. -/
def sizeL : List Json → Nat
  | [] => 0
  | x :: xs => 1 + max (sizeJ x) (sizeL xs)

/-- Fuel bound for parsing serialized object fields. -/
def sizeF : List (String × Json) → Nat
  | [] => 0
  | (_, v) :: fs => 1 + max (sizeJ v) (sizeF fs)

end

/-- Consume an expected literal character sequence. -/
def expectChars : List Char → List Char → Option (List Char)
  | [], cs => some cs
  | _ :: _, [] => none
  | e :: es, c :: cs => if c = e then expectChars es cs else none

/-- Consume a string body up to the closing quote, undoing escapes;
`acc` holds the already-read characters in reverse. -/
def parseStringAux : List Char → List Char → Option (List Char × List Char)
  | [], _ => none
  | c :: cs, acc =>
    if c = '"' then some (acc.reverse, cs)
    else if c = '\\' then
      match cs with
      | [] => none
      | d :: ds => parseStringAux ds (d :: acc)
    else parseStringAux cs (c :: acc)

/-- Consume a maximal run of decimal digits, accumulating their value. -/
def parseDigitsAux : List Char → Nat → Nat × List Char
  | [], acc => (acc, [])
  | c :: cs, acc =>
    if c.isDigit then parseDigitsAux cs (acc * 10 + (c.toNat - 48))
    else (acc, c :: cs)

mutual

/-- Recursive-descent parser for one serialized JSON value. -/
def parseJson : Nat → List Char → Option (Json × List Char)
  | 0, _ => none
  | fuel + 1, cs =>
    match cs with
    | [] => none
    | c :: cs' =>
      if c = 'n' then (expectChars ['u', 'l', 'l'] cs').map (fun r => (Json.null, r))
      else if c = 't' then (expectChars ['r', 'u', 'e'] cs').map (fun r => (Json.bool true, r))
      else if c = 'f' then (expectChars ['a', 'l', 's', 'e'] cs').map (fun r => (Json.bool false, r))
      else if c = '"' then
        (parseStringAux cs' []).map (fun p => (Json.str (String.mk p.1), p.2))
      else if c = '[' then
        match cs' with
        | [] => none
        | d :: r =>
          if d = ']' then some (Json.arr [], r)
          else (parseItems fuel (d :: r)).map (fun p => (Json.arr p.1, p.2))
      else if c = '\x7b' then
        match cs' with
        | [] => none
        | d :: r =>
          if d = '\x7d' then some (Json.obj [], r)
          else (parseFields fuel (d :: r)).map (fun p => (Json.obj p.1, p.2))
      else if c = '-' then
        match cs' with
        | [] => none
        | d :: _ =>
          if d.isDigit then
            some (Json.num (-((parseDigitsAux cs' 0).1 : Int)), (parseDigitsAux cs' 0).2)
          else none
      else if c.isDigit then
        some (Json.num ((parseDigitsAux (c :: cs') 0).1 : Int), (parseDigitsAux (c :: cs') 0).2)
      else none

/-- Parse one or more comma-separated elements followed by `]`. -/
def parseItems : Nat → List Char → Option (List Json × List Char)
  | 0, _ => none
  | fuel + 1, cs =>
    match parseJson fuel cs with
    | none => none
    | some (x, r) =>
      match r with
      | [] => none
      | d :: r' =>
        if d = ',' then (parseItems fuel r').map (fun p => (x :: p.1, p.2))
        else if d = ']' then some ([x], r')
        else none

/-- Parse one or more comma-separated `"key":value` fields followed by the
closing brace. -/
def parseFields : Nat → List Char → Option (List (String × Json) × List Char)
  | 0, _ => none
  | fuel + 1, cs =>
    match cs with
    | [] => none
    | c :: cs' =>
      if c = '"' then
        match parseStringAux cs' [] with
        | none => none
        | some (k, r) =>
          match r with
          | [] => none
          | d :: r' =>
            if d = ':' then
              match parseJson fuel r' with
              | none => none
              | some (v, r'') =>
                match r'' with
                | [] => none
                | e :: r3 =>
                  if e = ',' then
                    (parseFields fuel r3).map (fun p => ((String.mk k, v) :: p.1, p.2))
                  else if e = '\x7d' then some ([(String.mk k, v)], r3)
                  else none
            else none
      else none

end

/-- `JSON.parse` of a whole wire text: the input's length plus one is always
enough fuel for anything the serializer produced. -/
def parseJsonWire (cs : List Char) : Option (Json × List Char) :=
  parseJson (cs.length + 1) cs

/-! ### Round-trip lemmas for the wire format -/

/-- The next character (if any) is not a digit, so a maximal digit run stops
exactly at the boundary. -/
def notDigitHead : List Char → Prop
  | [] => True
  | c :: _ => c.isDigit = false

theorem expectChars_append (pre rest : List Char) :
    expectChars pre (pre ++ rest) = some rest := by
  induction pre with
  | nil => rfl
  | cons c cs ih => simp [expectChars, ih]

theorem ne_of_isDigit {c x : Char} (hc : c.isDigit = true) (hx : x.isDigit = false) :
    c ≠ x := by
  intro h
  subst h
  rw [hx] at hc
  cases hc

theorem charOfNat_digit_toNat : ∀ m : Nat, m < 10 → (Char.ofNat (48 + m)).toNat = 48 + m := by
  intro m hm
  interval_cases m <;> decide

theorem charOfNat_digit_isDigit : ∀ m : Nat, m < 10 → (Char.ofNat (48 + m)).isDigit = true := by
  intro m hm
  interval_cases m <;> decide

theorem digitChar_toNat (n : Nat) : (digitChar n).toNat = 48 + n % 10 :=
  charOfNat_digit_toNat (n % 10) (Nat.mod_lt _ (by omega))

theorem digitChar_isDigit (n : Nat) : (digitChar n).isDigit = true :=
  charOfNat_digit_isDigit (n % 10) (Nat.mod_lt _ (by omega))

theorem parseStringAux_quote (cs acc : List Char) :
    parseStringAux ('"' :: cs) acc = some (acc.reverse, cs) := by
  rw [parseStringAux.eq_def]
  simp

theorem parseStringAux_escaped (d : Char) (ds acc : List Char) :
    parseStringAux ('\\' :: d :: ds) acc = parseStringAux ds (d :: acc) := by
  rw [parseStringAux.eq_def]
  simp

theorem parseStringAux_other (c : Char) (cs acc : List Char)
    (h1 : c ≠ '"') (h2 : c ≠ '\\') :
    parseStringAux (c :: cs) acc = parseStringAux cs (c :: acc) := by
  rw [parseStringAux.eq_def]
  simp [h1, h2]

theorem parseStringAux_escape (l : List Char) :
    ∀ acc rest : List Char,
      parseStringAux (escapeChars l ++ '"' :: rest) acc = some (acc.reverse ++ l, rest) := by
  induction l with
  | nil =>
    intro acc rest
    simp [escapeChars, parseStringAux_quote]
  | cons c cs ih =>
    intro acc rest
    by_cases hc : c = '"' ∨ c = '\\'
    · have h1 : escapeChars (c :: cs) = '\\' :: c :: escapeChars cs := by
        show escapeChar c ++ escapeChars cs = _
        unfold escapeChar
        rw [if_pos hc]
        rfl
      rw [h1, List.cons_append, List.cons_append, parseStringAux_escaped]
      rw [ih (c :: acc) rest]
      simp
    · push_neg at hc
      have h1 : escapeChars (c :: cs) = c :: escapeChars cs := by
        show escapeChar c ++ escapeChars cs = _
        unfold escapeChar
        rw [if_neg (not_or.mpr ⟨hc.1, hc.2⟩)]
        rfl
      rw [h1, List.cons_append, parseStringAux_other c _ _ hc.1 hc.2]
      rw [ih (c :: acc) rest]
      simp

theorem parseDigitsAux_run (l : List Char) :
    ∀ (acc : Nat) (rest : List Char), (∀ c ∈ l, c.isDigit = true) → notDigitHead rest →
      parseDigitsAux (l ++ rest) acc =
        (l.foldl (fun a c => a * 10 + (c.toNat - 48)) acc, rest) := by
  induction l with
  | nil =>
    intro acc rest _ hrest
    cases rest with
    | nil => rfl
    | cons c cs =>
      simp only [notDigitHead] at hrest
      simp [parseDigitsAux, hrest]
  | cons c cs ih =>
    intro acc rest hl hrest
    have hc : c.isDigit = true := hl c (by simp)
    simp only [List.cons_append, parseDigitsAux, hc, if_pos, List.foldl_cons]
    exact ih _ rest (fun d hd => hl d (by simp [hd])) hrest

theorem natDigitsGo_append (n : Nat) :
    ∀ acc : List Char, natDigitsGo n acc = natDigitsGo n [] ++ acc := by
  induction n using Nat.strong_induction_on with
  | _ n ih =>
    intro acc
    by_cases h : n < 10
    · conv_lhs => rw [natDigitsGo]
      conv_rhs => rw [natDigitsGo]
      simp [h]
    · conv_lhs => rw [natDigitsGo]
      conv_rhs => rw [natDigitsGo]
      rw [if_neg h, if_neg h]
      rw [ih (n / 10) (Nat.div_lt_self (by omega) (by omega)) (digitChar (n % 10) :: acc)]
      rw [ih (n / 10) (Nat.div_lt_self (by omega) (by omega)) [digitChar (n % 10)]]
      simp

theorem natDigits_eq (n : Nat) :
    natDigits n =
      if n < 10 then [digitChar n] else natDigits (n / 10) ++ [digitChar (n % 10)] := by
  unfold natDigits
  by_cases h : n < 10
  · rw [natDigitsGo, if_pos h, if_pos h]
  · rw [natDigitsGo, if_neg h, if_neg h]
    exact natDigitsGo_append (n / 10) [digitChar (n % 10)]

theorem natDigits_ne_nil (n : Nat) : natDigits n ≠ [] := by
  rw [natDigits_eq]
  split <;> simp

theorem natDigits_all_digit (n : Nat) : ∀ c ∈ natDigits n, c.isDigit = true := by
  induction n using Nat.strong_induction_on with
  | _ n ih =>
    rw [natDigits_eq]
    by_cases h : n < 10
    · rw [if_pos h]
      intro c hc
      simp at hc
      rw [hc]
      exact digitChar_isDigit n
    · rw [if_neg h]
      intro c hc
      rcases List.mem_append.mp hc with h' | h'
      · exact ih (n / 10) (Nat.div_lt_self (by omega) (by omega)) c h'
      · simp at h'
        rw [h']
        exact digitChar_isDigit (n % 10)

theorem natDigits_foldl (n : Nat) :
    ∀ a : Nat, (natDigits n).foldl (fun x c => x * 10 + (c.toNat - 48)) a =
      a * 10 ^ (natDigits n).length + n := by
  induction n using Nat.strong_induction_on with
  | _ n ih =>
    intro a
    by_cases h : n < 10
    · rw [natDigits_eq, if_pos h]
      simp only [List.foldl_cons, List.foldl_nil, List.length_cons, List.length_nil,
        digitChar_toNat, pow_succ, pow_zero]
      omega
    · rw [natDigits_eq, if_neg h, List.foldl_append,
        ih (n / 10) (Nat.div_lt_self (by omega) (by omega)) a]
      have hlen : (natDigits (n / 10) ++ [digitChar (n % 10)]).length =
          (natDigits (n / 10)).length + 1 := by simp
      rw [hlen]
      simp only [List.foldl_cons, List.foldl_nil, digitChar_toNat]
      have h1 : 48 + n % 10 % 10 - 48 = n % 10 := by omega
      rw [h1, pow_succ]
      have hd : n / 10 * 10 + n % 10 = n := by omega
      calc (a * 10 ^ (natDigits (n / 10)).length + n / 10) * 10 + n % 10
          = a * (10 ^ (natDigits (n / 10)).length * 10) + (n / 10 * 10 + n % 10) := by ring
        _ = a * (10 ^ (natDigits (n / 10)).length * 10) + n := by rw [hd]

theorem parseDigits_natDigits (n : Nat) (rest : List Char) (h : notDigitHead rest) :
    parseDigitsAux (natDigits n ++ rest) 0 = (n, rest) := by
  rw [parseDigitsAux_run (natDigits n) 0 rest (natDigits_all_digit n) h]
  rw [natDigits_foldl n 0]
  simp

theorem String_mk_data (s : String) : String.mk s.data = s := by
  cases s
  rfl

theorem printString_parse (s : String) (rest : List Char) :
    parseStringAux (escapeChars s.data ++ '"' :: rest) [] = some (s.data, rest) := by
  rw [parseStringAux_escape s.data [] rest]
  simp

theorem sizeJ_pos (j : Json) : 1 ≤ sizeJ j := by
  cases j <;> simp [sizeJ]

theorem sizeL_pos (xs : List Json) (h : xs ≠ []) : 1 ≤ sizeL xs := by
  cases xs with
  | nil => exact absurd rfl h
  | cons x xs => simp [sizeL]

theorem sizeF_pos (fs : List (String × Json)) (h : fs ≠ []) : 1 ≤ sizeF fs := by
  cases fs with
  | nil => exact absurd rfl h
  | cons f fs =>
    obtain ⟨k, v⟩ := f
    simp [sizeF]

theorem parseJson_null (fuel : Nat) (rest : List Char) :
    parseJson (fuel + 1) (['n', 'u', 'l', 'l'] ++ rest) = some (Json.null, rest) := by
  simp [parseJson, expectChars]

theorem parseJson_true (fuel : Nat) (rest : List Char) :
    parseJson (fuel + 1) (['t', 'r', 'u', 'e'] ++ rest) = some (Json.bool true, rest) := by
  simp [parseJson, expectChars]

theorem parseJson_false (fuel : Nat) (rest : List Char) :
    parseJson (fuel + 1) (['f', 'a', 'l', 's', 'e'] ++ rest) = some (Json.bool false, rest) := by
  simp [parseJson, expectChars]

theorem parseJson_str (fuel : Nat) (s : String) (rest : List Char) :
    parseJson (fuel + 1) (printString s ++ rest) = some (Json.str s, rest) := by
  have h : printString s ++ rest = '"' :: (escapeChars s.data ++ '"' :: rest) := by
    simp [printString]
  rw [h]
  simp [parseJson, printString_parse, String_mk_data]

theorem intChars_nonneg (n : Int) (h : ¬n < 0) : intChars n = natDigits n.natAbs := by
  unfold intChars
  rw [if_neg h]

theorem intChars_neg (n : Int) (h : n < 0) : intChars n = '-' :: natDigits n.natAbs := by
  unfold intChars
  rw [if_pos h]

theorem parseJson_num (fuel : Nat) (n : Int) (rest : List Char) (h : notDigitHead rest) :
    parseJson (fuel + 1) (intChars n ++ rest) = some (Json.num n, rest) := by
  obtain ⟨c, t, hct⟩ : ∃ c t, natDigits n.natAbs = c :: t := by
    cases hcase : natDigits n.natAbs with
    | nil => exact absurd hcase (natDigits_ne_nil _)
    | cons c t => exact ⟨c, t, rfl⟩
  have hcd : c.isDigit = true := natDigits_all_digit n.natAbs c (by rw [hct]; simp)
  have hparse : parseDigitsAux (c :: (t ++ rest)) 0 = (n.natAbs, rest) := by
    have := parseDigits_natDigits n.natAbs rest h
    rw [hct] at this
    simpa using this
  have h1 : c ≠ 'n' := ne_of_isDigit hcd (by decide)
  have h2 : c ≠ 't' := ne_of_isDigit hcd (by decide)
  have h3 : c ≠ 'f' := ne_of_isDigit hcd (by decide)
  have h4 : c ≠ '"' := ne_of_isDigit hcd (by decide)
  have h5 : c ≠ '[' := ne_of_isDigit hcd (by decide)
  have h6 : c ≠ '\x7b' := ne_of_isDigit hcd (by decide)
  have h7 : c ≠ '-' := ne_of_isDigit hcd (by decide)
  by_cases hn : n < 0
  · rw [intChars_neg n hn, hct]
    have hs : (('-' :: (c :: t)) ++ rest) = '-' :: (c :: (t ++ rest)) := by simp
    rw [hs]
    simp only [parseJson]
    norm_num
    rw [hparse]
    simp [hcd]
    rw [abs_of_nonpos (by omega : n ≤ 0)]
    ring
  · rw [intChars_nonneg n hn, hct]
    have hs : ((c :: t) ++ rest) = c :: (t ++ rest) := by simp
    rw [hs]
    simp only [parseJson]
    rw [if_neg h1, if_neg h2, if_neg h3, if_neg h4, if_neg h5, if_neg h6, if_neg h7, if_pos hcd]
    rw [hparse]
    have : (n.natAbs : Int) = n := by omega
    simp [this]

theorem notDigitHead_cons (c : Char) (l : List Char) (h : c.isDigit = false) :
    notDigitHead (c :: l) := h

theorem printJson_head_ne_rbracket (j : Json) :
    ∃ c t, printJson j = c :: t ∧ c ≠ ']' := by
  cases j with
  | null => exact ⟨'n', _, rfl, by decide⟩
  | bool b =>
    cases b with
    | false => exact ⟨'f', _, rfl, by decide⟩
    | true => exact ⟨'t', _, rfl, by decide⟩
  | num n =>
    by_cases hn : n < 0
    · refine ⟨'-', natDigits n.natAbs, ?_, by decide⟩
      rw [show printJson (Json.num n) = intChars n from rfl, intChars_neg n hn]
    · obtain ⟨c, t, hct⟩ : ∃ c t, natDigits n.natAbs = c :: t := by
        cases hcase : natDigits n.natAbs with
        | nil => exact absurd hcase (natDigits_ne_nil _)
        | cons c t => exact ⟨c, t, rfl⟩
      refine ⟨c, t, ?_, ?_⟩
      · rw [show printJson (Json.num n) = intChars n from rfl, intChars_nonneg n hn, hct]
      · exact ne_of_isDigit (natDigits_all_digit _ c (by rw [hct]; simp)) (by decide)
  | str s => exact ⟨'"', _, rfl, by decide⟩
  | arr xs => exact ⟨'[', _, rfl, by decide⟩
  | obj fs => exact ⟨'\x7b', _, rfl, by decide⟩

theorem printItemsSep_head (x : Json) (xs : List Json) :
    ∃ c t, printItemsSep (x :: xs) = c :: t ∧ c ≠ ']' := by
  obtain ⟨c, t, hct, hc⟩ := printJson_head_ne_rbracket x
  cases xs with
  | nil => exact ⟨c, t, by simp [printItemsSep, hct], hc⟩
  | cons y ys =>
    exact ⟨c, t ++ ',' :: printItemsSep (y :: ys), by simp [printItemsSep, hct], hc⟩

theorem printFieldsSep_head (k : String) (v : Json) (fs : List (String × Json)) :
    ∃ t, printFieldsSep ((k, v) :: fs) = '"' :: t := by
  cases fs with
  | nil =>
    refine ⟨(escapeChars k.data ++ ['"']) ++ ':' :: printJson v, ?_⟩
    simp [printFieldsSep, printString]
  | cons g gs =>
    refine ⟨(escapeChars k.data ++ ['"']) ++ ':' :: (printJson v ++ ',' :: printFieldsSep (g :: gs)), ?_⟩
    simp [printFieldsSep, printString]

theorem parse_print_aux : ∀ fuel : Nat,
    (∀ (j : Json) (rest : List Char), sizeJ j ≤ fuel → notDigitHead rest →
      parseJson fuel (printJson j ++ rest) = some (j, rest)) ∧
    (∀ (xs : List Json) (rest : List Char), xs ≠ [] → sizeL xs ≤ fuel →
      parseItems fuel (printItemsSep xs ++ ']' :: rest) = some (xs, rest)) ∧
    (∀ (fs : List (String × Json)) (rest : List Char), fs ≠ [] → sizeF fs ≤ fuel →
      parseFields fuel (printFieldsSep fs ++ '\x7d' :: rest) = some (fs, rest)) := by
  intro fuel
  induction fuel with
  | zero =>
    refine ⟨fun j rest hs _ => ?_, fun xs rest hne hs => ?_, fun fs rest hne hs => ?_⟩
    · exact absurd hs (by have := sizeJ_pos j; omega)
    · exact absurd hs (by have := sizeL_pos xs hne; omega)
    · exact absurd hs (by have := sizeF_pos fs hne; omega)
  | succ fuel ih =>
    obtain ⟨ihJ, ihL, ihF⟩ := ih
    refine ⟨fun j rest hs hrest => ?_, fun xs rest hne hs => ?_, fun fs rest hne hs => ?_⟩
    · cases j with
      | null => exact parseJson_null fuel rest
      | bool b =>
        cases b with
        | true => exact parseJson_true fuel rest
        | false => exact parseJson_false fuel rest
      | num n => exact parseJson_num fuel n rest hrest
      | str s => exact parseJson_str fuel s rest
      | arr xs =>
        cases xs with
        | nil =>
          have hx : printJson (Json.arr []) ++ rest = '[' :: ']' :: rest := by
            simp [printJson, printItemsSep]
          rw [hx]
          simp [parseJson]
        | cons x xs' =>
          obtain ⟨c, t, hct, hc⟩ := printItemsSep_head x xs'
          have hx : printJson (Json.arr (x :: xs')) ++ rest =
              '[' :: (c :: (t ++ ']' :: rest)) := by
            simp [printJson, hct]
          rw [hx]
          have hitems := ihL (x :: xs') rest (by simp) (by
            simp [sizeJ] at hs
            omega)
          rw [hct] at hitems
          simp only [List.cons_append] at hitems
          simp [parseJson, hc, hitems]
      | obj fs =>
        cases fs with
        | nil =>
          have hx : printJson (Json.obj []) ++ rest = '\x7b' :: '\x7d' :: rest := by
            simp [printJson, printFieldsSep]
          rw [hx]
          simp [parseJson]
        | cons f fs' =>
          obtain ⟨k, v⟩ := f
          obtain ⟨t, ht⟩ := printFieldsSep_head k v fs'
          have hx : printJson (Json.obj ((k, v) :: fs')) ++ rest =
              '\x7b' :: ('"' :: (t ++ '\x7d' :: rest)) := by
            simp [printJson, ht]
          rw [hx]
          have hfields := ihF ((k, v) :: fs') rest (by simp) (by
            simp [sizeJ] at hs
            omega)
          rw [ht] at hfields
          simp only [List.cons_append] at hfields
          simp [parseJson, hfields]
    · cases xs with
      | nil => exact absurd rfl hne
      | cons x xs' =>
        have hmax1 := Nat.le_max_left (sizeJ x) (sizeL xs')
        have hmax2 := Nat.le_max_right (sizeJ x) (sizeL xs')
        simp [sizeL] at hs
        have hx : sizeJ x ≤ fuel := by omega
        cases xs' with
        | nil =>
          have hj := ihJ x (']' :: rest) hx (notDigitHead_cons ']' rest (by decide))
          have hshow : printItemsSep [x] ++ ']' :: rest = printJson x ++ ']' :: rest := by
            simp [printItemsSep]
          rw [hshow]
          simp [parseItems, hj]
        | cons y ys =>
          have hy : sizeL (y :: ys) ≤ fuel := by omega
          have hj := ihJ x (',' :: (printItemsSep (y :: ys) ++ ']' :: rest)) hx
            (notDigitHead_cons ',' _ (by decide))
          have hrec := ihL (y :: ys) rest (by simp) hy
          have hshow : printItemsSep (x :: y :: ys) ++ ']' :: rest =
              printJson x ++ (',' :: (printItemsSep (y :: ys) ++ ']' :: rest)) := by
            simp [printItemsSep]
          rw [hshow]
          simp [parseItems, hj, hrec]
    · cases fs with
      | nil => exact absurd rfl hne
      | cons f fs' =>
        obtain ⟨k, v⟩ := f
        have hmax1 := Nat.le_max_left (sizeJ v) (sizeF fs')
        have hmax2 := Nat.le_max_right (sizeJ v) (sizeF fs')
        simp [sizeF] at hs
        have hv : sizeJ v ≤ fuel := by omega
        cases fs' with
        | nil =>
          have hj := ihJ v ('\x7d' :: rest) hv (notDigitHead_cons '\x7d' rest (by decide))
          have hstr : parseStringAux
              (escapeChars k.data ++ '"' :: (':' :: (printJson v ++ '\x7d' :: rest))) [] =
              some (k.data, ':' :: (printJson v ++ '\x7d' :: rest)) := by
            rw [parseStringAux_escape]
            simp
          have hshow : printFieldsSep [(k, v)] ++ '\x7d' :: rest =
              '"' :: (escapeChars k.data ++ '"' :: (':' :: (printJson v ++ '\x7d' :: rest))) := by
            simp [printFieldsSep, printString]
          rw [hshow]
          simp [parseFields, hstr, hj, String_mk_data]
        | cons g gs =>
          have hg : sizeF (g :: gs) ≤ fuel := by omega
          have hj := ihJ v (',' :: (printFieldsSep (g :: gs) ++ '\x7d' :: rest)) hv
            (notDigitHead_cons ',' _ (by decide))
          have hrec := ihF (g :: gs) rest (by simp) hg
          have hstr : parseStringAux
              (escapeChars k.data ++
                '"' :: (':' :: (printJson v ++ ',' :: (printFieldsSep (g :: gs) ++ '\x7d' :: rest)))) [] =
              some (k.data,
                ':' :: (printJson v ++ ',' :: (printFieldsSep (g :: gs) ++ '\x7d' :: rest))) := by
            rw [parseStringAux_escape]
            simp
          have hshow : printFieldsSep ((k, v) :: g :: gs) ++ '\x7d' :: rest =
              '"' :: (escapeChars k.data ++
                '"' :: (':' :: (printJson v ++ ',' :: (printFieldsSep (g :: gs) ++ '\x7d' :: rest)))) := by
            simp [printFieldsSep, printString]
          rw [hshow]
          simp [parseFields, hstr, hj, hrec, String_mk_data]

theorem sizeL_cons (x : Json) (xs : List Json) :
    sizeL (x :: xs) = 1 + max (sizeJ x) (sizeL xs) := by
  rw [sizeL]

theorem sizeF_cons (k : String) (v : Json) (fs : List (String × Json)) :
    sizeF ((k, v) :: fs) = 1 + max (sizeJ v) (sizeF fs) := by
  rw [sizeF]

theorem size_le_len_aux : ∀ n : Nat,
    (∀ j : Json, sizeOf j ≤ n → sizeJ j ≤ (printJson j).length) ∧
    (∀ xs : List Json, sizeOf xs ≤ n → xs ≠ [] →
      sizeL xs ≤ (printItemsSep xs).length + 1) ∧
    (∀ fs : List (String × Json), sizeOf fs ≤ n → fs ≠ [] →
      sizeF fs ≤ (printFieldsSep fs).length + 1) := by
  intro n
  induction n with
  | zero =>
    refine ⟨fun j hsz => ?_, fun xs hsz hne => ?_, fun fs hsz hne => ?_⟩
    · refine absurd hsz ?_
      have h0 : 0 < sizeOf j := by cases j <;> simp
      omega
    · refine absurd hsz ?_
      have h0 : 0 < sizeOf xs := by cases xs <;> simp
      omega
    · refine absurd hsz ?_
      have h0 : 0 < sizeOf fs := by cases fs <;> simp
      omega
  | succ n ih =>
    obtain ⟨ihJ, ihL, ihF⟩ := ih
    refine ⟨fun j hsz => ?_, fun xs hsz hne => ?_, fun fs hsz hne => ?_⟩
    · cases j with
      | null => simp [sizeJ, printJson]
      | bool b => cases b <;> simp [sizeJ, printJson]
      | num m =>
        have hlen : 1 ≤ (natDigits m.natAbs).length :=
          List.length_pos.mpr (natDigits_ne_nil _)
        by_cases hn : m < 0
        · rw [show printJson (Json.num m) = intChars m from rfl, intChars_neg m hn]
          simp only [sizeJ, List.length_cons]
          omega
        · rw [show printJson (Json.num m) = intChars m from rfl, intChars_nonneg m hn]
          simp only [sizeJ]
          omega
      | str s => simp [sizeJ, printJson, printString]
      | arr xs =>
        cases xs with
        | nil => simp [sizeJ, sizeL, printJson, printItemsSep]
        | cons x xs' =>
          simp only [Json.arr.sizeOf_spec] at hsz
          have h := ihL (x :: xs') (by omega) (by simp)
          simp only [sizeJ, printJson, List.length_cons, List.length_append,
            List.length_singleton]
          omega
      | obj fs =>
        cases fs with
        | nil => simp [sizeJ, sizeF, printJson, printFieldsSep]
        | cons f fs' =>
          simp only [Json.obj.sizeOf_spec] at hsz
          have h := ihF (f :: fs') (by omega) (by simp)
          simp only [sizeJ, printJson, List.length_cons, List.length_append,
            List.length_singleton]
          omega
    · cases xs with
      | nil => exact absurd rfl hne
      | cons x xs' =>
        simp only [List.cons.sizeOf_spec] at hsz
        have hx := ihJ x (by omega)
        cases xs' with
        | nil =>
          rw [show printItemsSep [x] = printJson x from by simp [printItemsSep]]
          rw [sizeL_cons]
          rw [show sizeL ([] : List Json) = 0 from by simp [sizeL]]
          simp only [Nat.max_zero]
          omega
        | cons y ys =>
          have hy := ihL (y :: ys) (by omega) (by simp)
          have hm : max (sizeJ x) (sizeL (y :: ys)) ≤
              (printJson x).length + ((printItemsSep (y :: ys)).length + 1) :=
            Nat.max_le.mpr ⟨by omega, by omega⟩
          rw [show printItemsSep (x :: y :: ys) =
            printJson x ++ ',' :: printItemsSep (y :: ys) from by simp [printItemsSep]]
          rw [sizeL_cons]
          simp only [List.length_append, List.length_cons]
          omega
    · cases fs with
      | nil => exact absurd rfl hne
      | cons f fs' =>
        obtain ⟨k, v⟩ := f
        simp only [List.cons.sizeOf_spec, Prod.mk.sizeOf_spec] at hsz
        have hv := ihJ v (by omega)
        cases fs' with
        | nil =>
          rw [show printFieldsSep [(k, v)] =
            printString k ++ ':' :: printJson v from by simp [printFieldsSep]]
          rw [sizeF_cons]
          rw [show sizeF ([] : List (String × Json)) = 0 from by simp [sizeF]]
          simp only [Nat.max_zero, List.length_append, List.length_cons]
          omega
        | cons g gs =>
          have hg := ihF (g :: gs) (by omega) (by simp)
          have hm : max (sizeJ v) (sizeF (g :: gs)) ≤
              (printJson v).length + ((printFieldsSep (g :: gs)).length + 1) :=
            Nat.max_le.mpr ⟨by omega, by omega⟩
          rw [show printFieldsSep ((k, v) :: g :: gs) =
            printString k ++ ':' :: printJson v ++ ',' :: printFieldsSep (g :: gs) from by
              simp [printFieldsSep]]
          rw [sizeF_cons]
          simp only [List.length_append, List.length_cons]
          omega

theorem sizeJ_le_printLen (j : Json) : sizeJ j ≤ (printJson j).length :=
  (size_le_len_aux (sizeOf j)).1 j (le_refl _)

theorem parseJsonWire_print (j : Json) : parseJsonWire (printJson j) = some (j, []) := by
  unfold parseJsonWire
  have h := (parse_print_aux ((printJson j).length + 1)).1 j []
    (by have := sizeJ_le_printLen j; omega) trivial
  rw [List.append_nil] at h
  exact h

/-- Claim C9: serializing any snapshot value to the wire text and parsing the
text back yields exactly the original value — in particular identical section
keys and identical derived values (threat level and alert counts). -/
theorem snapshot_wire_roundtrip (snap : Json) :
    parseJsonWire (printJson snap) = some (snap, []) ∧
    (parseJsonWire (printJson snap)).map (fun p => jsonKeys p.1) = some (jsonKeys snap) ∧
    (parseJsonWire (printJson snap)).map (fun p => jsonGet p.1 "threat_level") =
      some (jsonGet snap "threat_level") ∧
    (parseJsonWire (printJson snap)).map (fun p => jsonGet p.1 "total_alerts") =
      some (jsonGet snap "total_alerts") := by
  have h := parseJsonWire_print snap
  rw [h]
  exact ⟨rfl, rfl, rfl, rfl⟩
